import Mathlib

/-!
Shallow embedding of the da-upload delivery-lifecycle services.

Each definition translates one Python function of the repository
(`da_processor/services/...`, `da_processor/processors/...`); external
store and blob-store accesses (DynamoDB get/query/scan, S3 head_object,
SQS send) are passed in as explicit parameters holding the values those
calls would return, and wall-clock instants are modelled as integers.
String-valued statuses are kept as the literal strings the source uses.
-/

set_option autoImplicit false
set_option linter.unusedVariables false

/-- Drop every occurrence of `c` from the front and the back of a
character list (the behaviour of Python `str.strip(c)`). -/
def stripCharEnds (c : Char) (l : List Char) : List Char :=
  ((l.dropWhile (· == c)).reverse.dropWhile (· == c)).reverse

/-- Python `path.endswith(sfx)`, computed on the character lists (the
core `String.endsWith` does not reduce inside the kernel). -/
def strEndsWith (s sfx : String) : Bool :=
  sfx.toList.isSuffixOf s.toList

/-- Python `str.upper()`, computed on the character lists (the core
`String.toUpper` does not reduce inside the kernel). -/
def strToUpper (s : String) : String :=
  String.mk (s.toList.map Char.toUpper)

/-- Replace every backslash by a forward slash (Python
`path.replace("\\", "/")`). -/
def replaceBackslashes (s : String) : String :=
  String.mk (s.toList.map (fun c => if c == '\\' then '/' else c))

/-- Python `path.strip("/")`. -/
def stripSlashes (s : String) : String :=
  String.mk (stripCharEnds '/' s.toList)

/-- `da_processor/utils/path_utils.py`, `normalize_s3_path`: convert
backslashes to forward slashes, strip leading/trailing slashes, and
restore a single trailing slash when the input ended in one. -/
def normalize_s3_path (path : String) : String :=
  if path = "" then ""
  else
    let has_trailing_slash := strEndsWith path "\\" || strEndsWith path "/"
    let stripped := stripSlashes (replaceBackslashes path)
    if has_trailing_slash && stripped ≠ "" then stripped ++ "/" else stripped

/-- The `Folder_Path` clean-up used throughout the services:
`folder_path.replace('\\', '/').strip('/')`. -/
def cleanFolderPath (s : String) : String :=
  stripSlashes (replaceBackslashes s)

/-- A row of the file-delivery tracker table (`FileDeliveryTracker`
record; see `file_delivery_service.py`).  `revisionCount` is `Option`
because the DynamoDB attribute may be absent (the update expression
guards it with `if_not_exists`). -/
structure TrackerRow where
  daId : String
  assetId : String
  filename : String
  licenseeId : String
  componentId : String
  checksum : String
  fileStatus : String
  version : Nat
  revisionCount : Option Nat
  originalDeliveryDate : String
  dateLastDelivered : String
  deriving Repr, DecidableEq

/-- The incoming `asset` dict handed to `track_file_delivery`. -/
structure IncomingAsset where
  assetId : String
  filename : String
  checksum : String
  version : Nat
  folderPath : String
  deriving Repr, DecidableEq

/-- The result of `track_file_delivery`: the tracker row as written plus
the returned `file_status` / `delivered_at` fields. -/
structure TrackResult where
  row : TrackerRow
  fileStatus : String
  deliveredAt : String
  deriving Repr, DecidableEq

/-- `file_delivery_service.py`, `track_file_delivery`.  `existing` is the
result of the `(DA_ID, Asset_Id)` lookup; `licensee_id` and
`component_id` stand for `_get_licensee_id_for_da` / `_infer_component_id`
on the create path.  An empty `Asset_ID` raises (here: `none`).  When a
row exists, the status is recomputed by version comparison: incoming
version strictly greater ⇒ `REVISED` (revision count incremented with an
`if_not_exists` default of 0), otherwise ⇒ `NO_CHANGE`; checksum, version
and `Date_Last_Delivered` are overwritten unconditionally. -/
def track_file_delivery (da_id : String) (existing : Option TrackerRow)
    (asset : IncomingAsset) (file_status : String) (current_time : String)
    (licensee_id component_id : String) : Option TrackResult :=
  if asset.assetId = "" then none
  else
    match existing with
    | some ex =>
      let file_status_calc := if asset.version > ex.version then "REVISED" else "NO_CHANGE"
      let row := { ex with
        fileStatus := file_status_calc
        checksum := asset.checksum
        dateLastDelivered := current_time
        version := asset.version
        revisionCount :=
          if file_status_calc = "REVISED" then some (ex.revisionCount.getD 0 + 1)
          else ex.revisionCount }
      some ⟨row, file_status_calc, current_time⟩
    | none =>
      let row : TrackerRow := {
        daId := da_id
        assetId := asset.assetId
        filename := asset.filename
        licenseeId := licensee_id
        componentId := component_id
        checksum := asset.checksum
        fileStatus := "NEW"
        version := asset.version
        revisionCount := some 0
        originalDeliveryDate := current_time
        dateLastDelivered := current_time }
      some ⟨row, "NEW", current_time⟩

/-- A row of the component table as read by the services
(`Delivery_Status` and `Required_Flag` may be absent; the source reads
them with `.get(..., default)`). -/
structure ComponentRow where
  componentId : String
  deliveryStatus : Option String
  requiredFlag : Option String
  deriving Repr, DecidableEq

/-- A row of the asset-info catalog table (`Asset` entity): also the
shape of the expected-asset records returned by
`_get_expected_assets_for_component`.  `version` is `Option` because the
source reads it as `item.get("Version", 1)`. -/
structure CatalogAsset where
  assetId : String
  filename : String
  folderPath : String
  checksum : String
  version : Option Nat
  deriving Repr, DecidableEq

/-- `file_delivery_service.py`, `update_da_delivery_status`: aggregate
the component statuses (defaulting a missing `Delivery_Status` to
`PENDING`).  No components ⇒ early return (`none`, nothing written); all
pending ⇒ `PENDING`; all completed and the DA active ⇒ `COMPLETED`;
otherwise ⇒ `PARTIAL`. -/
def update_da_delivery_status (components : List ComponentRow) (is_active : Bool) :
    Option String :=
  if components.isEmpty then none
  else
    let component_statuses := components.map (fun c => c.deliveryStatus.getD "PENDING")
    let all_completed := component_statuses.all (fun s => s == "COMPLETED")
    let all_pending := component_statuses.all (fun s => s == "PENDING")
    if all_pending then some "PENDING"
    else if all_completed && is_active then some "COMPLETED"
    else some "PARTIAL"

/-- `file_delivery_service.py`, `update_component_delivery_status`.
`component_exists` is whether the `(ID, Component_ID)` get returned an
item; `component_files` is `get_files_by_component` and
`expected_assets` is `_get_expected_assets_for_component`.  Missing
component or empty expected set ⇒ no status written (`none`); no
delivered assets ⇒ `PENDING`; every expected asset id delivered and the
DA active ⇒ `COMPLETED`; otherwise ⇒ `PARTIAL`. -/
def update_component_delivery_status (component_exists : Bool)
    (component_files : List TrackerRow) (expected_assets : List CatalogAsset)
    (is_active : Bool) : Option String :=
  if !component_exists then none
  else if expected_assets.isEmpty then none
  else
    let delivered_asset_ids := component_files.map (fun f => f.assetId)
    let expected_asset_ids := expected_assets.map (fun a => a.assetId)
    let all_delivered := expected_asset_ids.all (fun e => delivered_asset_ids.contains e)
    if delivered_asset_ids.isEmpty then some "PENDING"
    else if all_delivered && is_active then some "COMPLETED"
    else some "PARTIAL"

/-- Python `max(items, key=lambda x: x.get("Version", 1))`: the first
item whose version key (default 1) is maximal. -/
def maxByVersion : List CatalogAsset → Option CatalogAsset
  | [] => none
  | x :: xs =>
    some (xs.foldl (fun best i => if i.version.getD 1 > best.version.getD 1 then i else best) x)

/-- The largest version key (default 1) among the items of a folder. -/
def maxFolderVersion (items : List CatalogAsset) : Nat :=
  (items.map (fun i => i.version.getD 1)).foldl Nat.max 0

/-- `asset_ingest_dynamodb_service.py`, `get_next_version`.
`queryResult` is the outcome of the `FolderPathIndex` query for the
normalized folder path (`Except.error` = `ClientError`).  Query failure
⇒ 1; empty folder ⇒ 1; an item with the same normalized folder path,
filename and checksum ⇒ `none` (exact duplicate, skip); the
latest-version item of the folder carrying the same checksum ⇒ `none`;
otherwise that latest version (default 1) plus one. -/
def get_next_version (folder_path new_checksum filename : String)
    (queryResult : Except Unit (List CatalogAsset)) : Option Nat :=
  let normalized := normalize_s3_path folder_path
  match queryResult with
  | .error _ => some 1
  | .ok items =>
    if items.isEmpty then some 1
    else if items.any (fun item =>
        (normalize_s3_path item.folderPath == normalized) &&
        (item.filename == filename) && (item.checksum == new_checksum)) then none
    else
      match maxByVersion items with
      | none => some 1
      | some latest =>
        if latest.checksum = new_checksum then none
        else some (latest.version.getD 1 + 1)

/-- A parsed manifest CSV data row, as consumed by the sidecar
processor (`'Folder Path'` and `'Checksum'` columns). -/
structure CsvRow where
  folderPath : String
  checksum : String
  deriving Repr, DecidableEq

/-- A checksum-mismatch record as built by `validate_checksums`. -/
structure ChecksumMismatch where
  file : String
  expected : String
  actual : String
  path : String
  deriving Repr, DecidableEq

/-- `asset_sidecar_processor.py`, `validate_checksums`.  `computed_digest`
stands for `hashlib.md5(get_object_content(bucket, key)).hexdigest()`.
The source's per-file comparison block is commented out ("Checksum
validation is currently disabled"), so `checksum_mismatch` always stays
empty and the result is `SUCCESS` (or `VALID_STRUCTURE` when the package
has zero asset files), with every file plus the manifest forwarded. -/
def validate_checksums (data_rows : List CsvRow) (asset_files : List String)
    (bucket : String) (csv_key : String) (computed_digest : String → String) :
    List String × String × List ChecksumMismatch :=
  let checksum_mismatch : List ChecksumMismatch := []
  if !checksum_mismatch.isEmpty then
    ([csv_key] ++ checksum_mismatch.map (fun m => m.path), "MISMATCH_CHECKSUM", checksum_mismatch)
  else
    let folder_file_count := asset_files.length
    let status := if folder_file_count = 0 then "VALID_STRUCTURE" else "SUCCESS"
    (asset_files ++ [csv_key], status, [])

/-- The DA-table fields read by the delivery orchestrator.  The date
fields are the `parse_date` results (`none` = attribute missing or
unparseable), expressed as UTC instants on an integer timeline. -/
structure DAInfo where
  id : String
  licenseeId : String
  earliestDeliveryDate : Option Int
  licensePeriodEnd : Option Int
  nextManifestCheck : Option Int
  isActive : Bool
  deriving Repr, DecidableEq

/-- `delivery_orchestrator_service.py`, `_is_within_delivery_window`:
false when either bound is missing or unparseable, otherwise the closed
interval test `earliest_dt <= current_dt <= end_dt`. -/
def _is_within_delivery_window (da_info : DAInfo) (current_dt : Int) : Bool :=
  match da_info.earliestDeliveryDate, da_info.licensePeriodEnd with
  | some earliest_dt, some end_dt => decide (earliest_dt ≤ current_dt ∧ current_dt ≤ end_dt)
  | _, _ => false

/-- `delivery_orchestrator_service.py`, `_should_send_manifest`: allowed
when the DA (or its `Next_Manifest_Check`) is absent, otherwise
`current_dt >= next_check_dt`. -/
def _should_send_manifest (da_info : Option DAInfo) (current_dt : Int) : Bool :=
  match da_info with
  | none => true
  | some da =>
    match da.nextManifestCheck with
    | none => true
    | some next_check_dt => decide (current_dt ≥ next_check_dt)

/-- `delivery_orchestrator_service.py`, `_update_next_manifest_check`:
the new `Next_Manifest_Check` value, `now + Manifest_Frequency` with a
default frequency of 1800 when the licensee record or its
`Manifest_Frequency` attribute is missing. -/
def _update_next_manifest_check (current_dt : Int) (manifest_frequency : Option Int) : Int :=
  current_dt + manifest_frequency.getD 1800

/-- An asset entry of a generated manifest, with the fields
`process_delivery_for_da` reads from it. -/
structure ManifestAsset where
  assetId : String
  fileName : String
  checksum : String
  filePath : String
  fileStatus : String
  revisionId : Nat
  deriving Repr, DecidableEq

/-- The observable outcome of one `process_delivery_for_da` call: the
returned success flag and `reason`, whether a manifest was transmitted,
whether the per-asset tracking / status-update side effects ran, and the
DA's `Next_Manifest_Check` after the call. -/
structure DeliveryOutcome where
  success : Bool
  reason : Option String
  manifestSent : Bool
  trackedAssets : Bool
  nextManifestCheck : Option Int
  deriving Repr, DecidableEq

/-- `delivery_orchestrator_service.py`, `process_delivery_for_da`.
`da_info` is the DA-table lookup (absent ⇒ `ValueError`, modelled as
`Except.error`); `assets` the generated manifest's asset list;
`manifest_frequency` the licensee's configured frequency;
`sqs_send_ok` the result of `send_manifest_to_licensee`.  Outside the
delivery window ⇒ `outside_delivery_window` before any side effect; no
assets ⇒ `no_assets`; otherwise tracking and status roll-ups run, and a
manifest is sent only when some asset is New/Revised and the frequency
gate allows it, `Next_Manifest_Check` being rewritten only after a
successful send. -/
def process_delivery_for_da (da_info : Option DAInfo) (current_dt : Int)
    (assets : List ManifestAsset) (manifest_frequency : Option Int)
    (sqs_send_ok : Bool) : Except String DeliveryOutcome :=
  match da_info with
  | none => .error "DA not found"
  | some da =>
    if !_is_within_delivery_window da current_dt then
      .ok ⟨false, some "outside_delivery_window", false, false, da.nextManifestCheck⟩
    else if assets.isEmpty then
      .ok ⟨false, some "no_assets", false, false, da.nextManifestCheck⟩
    else
      let new_or_revised_count :=
        (assets.filter (fun asset =>
          ["New", "NEW", "Revised", "REVISED", "Revised", "NEW"].contains asset.fileStatus)).length
      if new_or_revised_count > 0 then
        if _should_send_manifest (some da) current_dt then
          if sqs_send_ok then
            .ok ⟨true, none, true, true,
              some (_update_next_manifest_check current_dt manifest_frequency)⟩
          else
            .ok ⟨false, some "sqs_send_failed", false, true, da.nextManifestCheck⟩
        else
          .ok ⟨true, some "frequency_limit", false, true, da.nextManifestCheck⟩
      else
        .ok ⟨true, some "no_changes", false, true, da.nextManifestCheck⟩

/-- The date-bearing fields of a submitted DA record as seen by
`_apply_system_defaults`.  Dates are modelled as already-parsed UTC
instants on an integer day-timeline (`none` = field absent); the
string-parsing / Zulu-formatting round trips of `to_zulu` are identity
on valid dates and out of scope here. -/
structure DASubmission where
  licensePeriodStart : Option Int
  licensePeriodEnd : Option Int
  dueDate : Option Int
  earliestDeliveryDate : Option Int
  exceptionNotificationDate : Option Int
  deriving Repr, DecidableEq

/-- `da_processor/utils/date_utils.py`, `subtract_days`: `none` unless
the date parses and `days > 0`, otherwise the date minus that many
days. -/
def subtract_days (dt : Option Int) (days : Int) : Option Int :=
  match dt with
  | some d => if days > 0 then some (d - days) else none
  | none => none

/-- `default_values_service.py`, `_apply_system_defaults`, first date
block: `Due_Date := License_Period_Start - due_date_window` days, only
when `Due_Date` is absent, `License_Period_Start` is present and the
window is strictly positive (skipped at 0). -/
def apply_due_date_rule (result : DASubmission) (due_date_window : Int) : DASubmission :=
  match result.dueDate, result.licensePeriodStart with
  | none, some start =>
    if due_date_window > 0 then
      match subtract_days (some start) due_date_window with
      | some calculated_due_date => { result with dueDate := some calculated_due_date }
      | none => result
    else result
  | _, _ => result

/-- `default_values_service.py`, `_apply_system_defaults`, second date
block: when `Earliest_Delivery_Date` is absent and `Due_Date` present,
set it to `Due_Date - earliest_delivery` days when the window is
strictly positive and to `Due_Date` itself otherwise (not skipped at
0). -/
def apply_earliest_delivery_rule (result : DASubmission) (earliest_delivery : Int) :
    DASubmission :=
  match result.earliestDeliveryDate, result.dueDate with
  | none, some due =>
    if earliest_delivery > 0 then
      match subtract_days (some due) earliest_delivery with
      | some calculated_earliest => { result with earliestDeliveryDate := some calculated_earliest }
      | none => result
    else { result with earliestDeliveryDate := some due }
  | _, _ => result

/-- `default_values_service.py`, `_apply_system_defaults`, third date
block: `Exception_Notification_Date := Due_Date - exception_notification`
days, only when the field is absent, `Due_Date` is present and the
window is strictly positive (skipped at 0). -/
def apply_exception_notification_rule (result : DASubmission)
    (exception_notification : Int) : DASubmission :=
  match result.exceptionNotificationDate, result.dueDate with
  | none, some due =>
    if exception_notification > 0 then
      match subtract_days (some due) exception_notification with
      | some calculated_exception =>
        { result with exceptionNotificationDate := some calculated_exception }
      | none => result
    else result
  | _, _ => result

/-- `default_values_service.py`, `_apply_system_defaults`, restricted to
its three date-derivation blocks applied in source order (the
recipient and description defaulting blocks read no dates). -/
def _apply_system_defaults (da_data : DASubmission)
    (due_date_window earliest_delivery exception_notification : Int) : DASubmission :=
  apply_exception_notification_rule
    (apply_earliest_delivery_rule (apply_due_date_rule da_data due_date_window)
      earliest_delivery)
    exception_notification

/-- A missing-asset record as built by `_check_component_assets`. -/
structure MissingAsset where
  assetId : String
  filename : String
  folderPath : String
  fullPath : String
  deriving Repr, DecidableEq

/-- One entry of the report's `missing_components` list. -/
structure MissingComponentEntry where
  componentId : String
  missingAssets : List MissingAsset
  deriving Repr, DecidableEq

/-- The missing-assets report returned by `check_missing_assets_for_da`
(title/licensee metadata fields omitted as irrelevant to the counts). -/
structure MissingReport where
  daId : String
  hasMissingAssets : Bool
  missingComponents : List MissingComponentEntry
  totalMissingCount : Nat
  deriving Repr, DecidableEq

/-- `missing_assets_service.py`, `_check_component_assets` (inner loop):
for every expected asset, check direct existence in storage by filename
and cleaned folder path (`exists_in_s3` stands for
`_check_asset_in_s3`), collecting the absent ones. -/
def _check_component_assets (expected_assets : List CatalogAsset)
    (exists_in_s3 : String → String → Bool) : List MissingAsset :=
  expected_assets.filterMap (fun asset =>
    let folder_path := cleanFolderPath asset.folderPath
    if exists_in_s3 asset.filename folder_path then none
    else some ⟨asset.assetId, asset.filename, folder_path,
      if folder_path ≠ "" then folder_path ++ "/" ++ asset.filename else asset.filename⟩)

/-- `missing_assets_service.py`, `check_missing_assets_for_da`.
`expected_assets_of` maps a component id to its expected-asset set (the
folder-structure resolution plus catalog query of
`_check_component_assets`); components whose `Required_Flag` (default
`'FALSE'`) is not `'TRUE'` case-insensitively are skipped, and a
component contributes an entry only when it has missing assets. -/
def check_missing_assets_for_da (da_id : String) (components : List ComponentRow)
    (expected_assets_of : String → List CatalogAsset)
    (exists_in_s3 : String → String → Bool) : MissingReport :=
  let all_missing_components := components.filterMap (fun component =>
    if strToUpper (component.requiredFlag.getD "FALSE") ≠ "TRUE" then none
    else
      let missing_assets :=
        _check_component_assets (expected_assets_of component.componentId) exists_in_s3
      if missing_assets.isEmpty then none
      else some ⟨component.componentId, missing_assets⟩)
  { daId := da_id
    hasMissingAssets := decide (all_missing_components.length > 0)
    missingComponents := all_missing_components
    totalMissingCount := (all_missing_components.map (fun c => c.missingAssets.length)).sum }

/-- C1: when a tracker row for `(da_id, asset_id)` already exists,
`track_file_delivery` recomputes the status by version comparison —
incoming version strictly greater than the stored one ⇒ `REVISED` with
`Revision_Count` incremented by exactly 1, otherwise ⇒ `NO_CHANGE` with
`Revision_Count` unchanged — and in both cases overwrites the stored
checksum, version and `Date_Last_Delivered` with the incoming/current
values. -/
theorem track_file_delivery_existing_update (da_id : String) (ex : TrackerRow)
    (asset : IncomingAsset) (file_status current_time licensee_id component_id : String)
    (rc : Nat) (hid : asset.assetId ≠ "") (hrc : ex.revisionCount = some rc) :
    ∃ res, track_file_delivery da_id (some ex) asset file_status current_time
        licensee_id component_id = some res ∧
      res.row.checksum = asset.checksum ∧
      res.row.version = asset.version ∧
      res.row.dateLastDelivered = current_time ∧
      res.row.fileStatus = res.fileStatus ∧
      (asset.version > ex.version →
        res.fileStatus = "REVISED" ∧ res.row.revisionCount = some (rc + 1)) ∧
      (¬ asset.version > ex.version →
        res.fileStatus = "NO_CHANGE" ∧ res.row.revisionCount = some rc) := by
  unfold track_file_delivery
  rw [if_neg hid]
  by_cases h : asset.version > ex.version
  · exact ⟨_, rfl, by simp [h, hrc]⟩
  · exact ⟨_, rfl, by simp [h, hrc]⟩

/-- C1 witness: a stored row at version 2 with revision count 2 receiving
version 3 becomes `REVISED` with revision count 3. -/
theorem track_file_delivery_existing_update_witness :
    ∃ res, track_file_delivery "DA-1"
        (some ⟨"DA-1", "A1", "f.mp4", "L1", "C1", "ck0", "NEW", 2, some 2, "t0", "t0"⟩)
        ⟨"A1", "f.mp4", "ck1", 3, "p"⟩ "NEW" "t1" "L1" "C1" = some res ∧
      res.fileStatus = "REVISED" ∧ res.row.revisionCount = some 3 := by
  obtain ⟨res, heq, _, _, _, _, hrev, _⟩ :=
    track_file_delivery_existing_update "DA-1"
      ⟨"DA-1", "A1", "f.mp4", "L1", "C1", "ck0", "NEW", 2, some 2, "t0", "t0"⟩
      ⟨"A1", "f.mp4", "ck1", 3, "p"⟩ "NEW" "t1" "L1" "C1" 2 (by decide) rfl
  exact ⟨res, heq, (hrev (by decide)).1, (hrev (by decide)).2⟩

/-- C2: for a DA with at least one component, `update_da_delivery_status`
writes `PENDING` when every component status (default `PENDING`) is
`PENDING`, `COMPLETED` when every component status is `COMPLETED` and the
DA is active, and `PARTIAL` in every other case — in particular all
components `COMPLETED` with `Is_Active` false yields `PARTIAL`. -/
theorem update_da_delivery_status_rollup (components : List ComponentRow)
    (is_active : Bool) (hne : components ≠ []) :
    ((components.map (fun c => c.deliveryStatus.getD "PENDING")).all
        (fun s => s == "PENDING") = true →
      update_da_delivery_status components is_active = some "PENDING") ∧
    ((components.map (fun c => c.deliveryStatus.getD "PENDING")).all
        (fun s => s == "COMPLETED") = true → is_active = true →
      update_da_delivery_status components is_active = some "COMPLETED") ∧
    ((components.map (fun c => c.deliveryStatus.getD "PENDING")).all
        (fun s => s == "PENDING") = false →
      ((components.map (fun c => c.deliveryStatus.getD "PENDING")).all
        (fun s => s == "COMPLETED") && is_active) = false →
      update_da_delivery_status components is_active = some "PARTIAL") := by
  obtain ⟨c, cs, rfl⟩ : ∃ c cs, components = c :: cs := by
    cases components with
    | nil => exact absurd rfl hne
    | cons c cs => exact ⟨c, cs, rfl⟩
  refine ⟨?_, ?_, ?_⟩
  · intro hall
    simp only [update_da_delivery_status, List.isEmpty_cons, Bool.false_eq_true, if_false, hall]
    simp
  · intro hall hact
    have hc : (c.deliveryStatus.getD "PENDING") = "COMPLETED" := by
      simp [List.all_cons] at hall
      exact hall.1
    have hnp : ((c :: cs).map (fun c => c.deliveryStatus.getD "PENDING")).all
        (fun s => s == "PENDING") = false := by
      simp [List.all_cons, hc]
    simp only [update_da_delivery_status, List.isEmpty_cons, Bool.false_eq_true, if_false,
      hall, hnp, hact, Bool.and_self]
    simp
  · intro h1 h2
    simp only [update_da_delivery_status, List.isEmpty_cons, Bool.false_eq_true, if_false, h1, h2]

/-- C2 witness: two `COMPLETED` components on an inactive DA roll up to
`PARTIAL`. -/
theorem update_da_delivery_status_rollup_witness :
    update_da_delivery_status
      [⟨"c1", some "COMPLETED", none⟩, ⟨"c2", some "COMPLETED", none⟩] false = some "PARTIAL" :=
  (update_da_delivery_status_rollup
    [⟨"c1", some "COMPLETED", none⟩, ⟨"c2", some "COMPLETED", none⟩] false (by simp)).2.2
    (by decide) (by decide)

/-- C3: `update_component_delivery_status` leaves the component status
unwritten when the expected-asset set is empty, writes `PENDING` when no
assets have been delivered, `COMPLETED` when every expected asset id is
among the delivered ids and the DA is active, and `PARTIAL` in every
other case (an inactive DA caps the component at `PARTIAL` even with all
assets delivered). -/
theorem update_component_delivery_status_rules (component_files : List TrackerRow)
    (expected_assets : List CatalogAsset) (is_active : Bool)
    (hexp : expected_assets ≠ []) :
    (∀ (files : List TrackerRow) (active : Bool),
      update_component_delivery_status true files [] active = none) ∧
    (component_files = [] →
      update_component_delivery_status true component_files expected_assets is_active
        = some "PENDING") ∧
    (component_files ≠ [] →
      (expected_assets.map (fun a => a.assetId)).all
        (fun e => (component_files.map (fun f => f.assetId)).contains e) = true →
      is_active = true →
      update_component_delivery_status true component_files expected_assets is_active
        = some "COMPLETED") ∧
    (component_files ≠ [] →
      ((expected_assets.map (fun a => a.assetId)).all
        (fun e => (component_files.map (fun f => f.assetId)).contains e) && is_active) = false →
      update_component_delivery_status true component_files expected_assets is_active
        = some "PARTIAL") := by
  obtain ⟨e0, es, rfl⟩ : ∃ e0 es, expected_assets = e0 :: es := by
    cases expected_assets with
    | nil => exact absurd rfl hexp
    | cons e0 es => exact ⟨e0, es, rfl⟩
  refine ⟨fun files active => by simp [update_component_delivery_status], ?_, ?_, ?_⟩
  · rintro rfl
    simp [update_component_delivery_status]
  · intro hne hall hact
    obtain ⟨f0, fs, rfl⟩ : ∃ f0 fs, component_files = f0 :: fs := by
      cases component_files with
      | nil => exact absurd rfl hne
      | cons f0 fs => exact ⟨f0, fs, rfl⟩
    simp only [update_component_delivery_status, Bool.not_true, Bool.false_eq_true, if_false,
      List.isEmpty_cons, hall, hact, Bool.and_self]
    simp
  · intro hne hfalse
    obtain ⟨f0, fs, rfl⟩ : ∃ f0 fs, component_files = f0 :: fs := by
      cases component_files with
      | nil => exact absurd rfl hne
      | cons f0 fs => exact ⟨f0, fs, rfl⟩
    simp only [update_component_delivery_status, Bool.not_true, Bool.false_eq_true, if_false,
      List.isEmpty_cons, hfalse]
    simp

/-- C3 witness: one delivered asset covering the single expected asset of
an inactive DA leaves the component at `PARTIAL`. -/
theorem update_component_delivery_status_rules_witness :
    update_component_delivery_status true
      [⟨"DA-1", "A1", "f1", "L", "C", "ck", "NEW", 1, some 0, "t", "t"⟩]
      [⟨"A1", "f1", "p", "ck", some 1⟩] false = some "PARTIAL" :=
  (update_component_delivery_status_rules
    [⟨"DA-1", "A1", "f1", "L", "C", "ck", "NEW", 1, some 0, "t", "t"⟩]
    [⟨"A1", "f1", "p", "ck", some 1⟩] false (by simp)).2.2.2
    (by simp) (by decide)

/-- C5: evaluating `validate_checksums` on a package whose single file
has computed digest `deadbeef` while the manifest declares `abc123` for
its folder entry still yields status `SUCCESS` with an empty mismatch
list and every file (plus the manifest) forwarded for promotion — the
comparison block is disabled in the source, so `MISMATCH_CHECKSUM` is
unreachable. -/
theorem validate_checksums_mismatch_ignored :
    validate_checksums [⟨"2590.0251/Video/", "abc123"⟩] ["Upload/2590.0251/Video/movie.mp4"]
      "ingest-bucket" "Upload/2590.0251/manifest.csv" (fun _ => "deadbeef") =
      (["Upload/2590.0251/Video/movie.mp4", "Upload/2590.0251/manifest.csv"], "SUCCESS", []) := rfl

/-- C10: when the catalog-version query fails with a store error,
`get_next_version` swallows the failure and returns version 1 for any
folder, checksum and filename; in particular the same (folder, filename)
whose successful query (holding version 3) would yield version 4 gets
version 1 when that query fails. -/
theorem get_next_version_store_error :
    (∀ folder_path new_checksum filename : String,
      get_next_version folder_path new_checksum filename (Except.error ()) = some 1) ∧
    get_next_version "f" "Y" "a" (Except.ok [⟨"id1", "a", "f", "X", some 3⟩]) = some 4 ∧
    get_next_version "f" "Y" "a" (Except.error ()) = some 1 :=
  ⟨fun _ _ _ => rfl, by decide, rfl⟩

/-- C4 counterexample: versioning is keyed by folder only.  The folder
`f` holds a single record, for filename `a` at version 1; the first-ever
upload of filename `b` into `f` (the catalog holds no record for that
(folder, filename) pair, as the second conjunct evaluates) is assigned
version 2, not version 1 as the claim requires for a first-ever upload
of a pair. -/
theorem get_next_version_counterexample :
    get_next_version "f" "Y" "b" (Except.ok [⟨"id1", "a", "f", "X", some 1⟩]) = some 2 ∧
    ([(⟨"id1", "a", "f", "X", some 1⟩ : CatalogAsset)].filter
      (fun item => item.filename == "b")) = [] := by
  decide

theorem apply_due_date_rule_keeps_other_fields (r : DASubmission) (w : Int) :
    (apply_due_date_rule r w).earliestDeliveryDate = r.earliestDeliveryDate ∧
    (apply_due_date_rule r w).exceptionNotificationDate = r.exceptionNotificationDate := by
  obtain ⟨lps, lpe, dd, edd, xnd⟩ := r
  cases dd <;> cases lps <;> simp [apply_due_date_rule] <;> split <;> simp [subtract_days] <;>
    split <;> simp

theorem apply_due_date_rule_skip_zero (r : DASubmission) (hdd : r.dueDate = none) :
    apply_due_date_rule r 0 = r := by
  obtain ⟨lps, lpe, dd, edd, xnd⟩ := r
  simp only at hdd
  subst hdd
  cases lps <;> simp [apply_due_date_rule]

theorem apply_earliest_delivery_rule_keeps_other_fields (r : DASubmission) (w : Int) :
    (apply_earliest_delivery_rule r w).dueDate = r.dueDate ∧
    (apply_earliest_delivery_rule r w).exceptionNotificationDate = r.exceptionNotificationDate := by
  obtain ⟨lps, lpe, dd, edd, xnd⟩ := r
  cases edd <;> cases dd <;> simp [apply_earliest_delivery_rule] <;> split <;>
    simp [subtract_days] <;> split <;> simp

theorem apply_earliest_delivery_rule_pos (r : DASubmission) (due w : Int)
    (hedd : r.earliestDeliveryDate = none) (hdd : r.dueDate = some due) (hw : 0 < w) :
    (apply_earliest_delivery_rule r w).earliestDeliveryDate = some (due - w) := by
  obtain ⟨lps, lpe, dd, edd, xnd⟩ := r
  simp only at hedd hdd
  subst hedd hdd
  simp [apply_earliest_delivery_rule, subtract_days, hw]

theorem apply_earliest_delivery_rule_zero (r : DASubmission) (due : Int)
    (hedd : r.earliestDeliveryDate = none) (hdd : r.dueDate = some due) :
    (apply_earliest_delivery_rule r 0).earliestDeliveryDate = some due := by
  obtain ⟨lps, lpe, dd, edd, xnd⟩ := r
  simp only at hedd hdd
  subst hedd hdd
  simp [apply_earliest_delivery_rule]

theorem apply_exception_notification_rule_keeps_other_fields (r : DASubmission) (w : Int) :
    (apply_exception_notification_rule r w).dueDate = r.dueDate ∧
    (apply_exception_notification_rule r w).earliestDeliveryDate = r.earliestDeliveryDate := by
  obtain ⟨lps, lpe, dd, edd, xnd⟩ := r
  cases xnd <;> cases dd <;> simp [apply_exception_notification_rule] <;> split <;>
    simp [subtract_days] <;> split <;> simp

theorem apply_exception_notification_rule_zero (r : DASubmission) :
    apply_exception_notification_rule r 0 = r := by
  obtain ⟨lps, lpe, dd, edd, xnd⟩ := r
  cases xnd <;> cases dd <;> simp [apply_exception_notification_rule]

/-- C8: for a submitted record lacking `Earliest_Delivery_Date` but
having a `Due_Date`, `_apply_system_defaults` sets
`Earliest_Delivery_Date` to `Due_Date` minus the earliest-delivery
window when that window is positive, and to `Due_Date` exactly when the
window is 0 (the rule is not skipped at zero) — whereas the `Due_Date`
and `Exception_Notification_Date` derivation rules are skipped when
their window is 0. -/
theorem apply_system_defaults_earliest_delivery (da_data : DASubmission)
    (due_date_window earliest_delivery exception_notification : Int) (due : Int) :
    (da_data.earliestDeliveryDate = none → da_data.dueDate = some due →
      0 < earliest_delivery →
      (_apply_system_defaults da_data due_date_window earliest_delivery
        exception_notification).earliestDeliveryDate = some (due - earliest_delivery)) ∧
    (da_data.earliestDeliveryDate = none → da_data.dueDate = some due →
      earliest_delivery = 0 →
      (_apply_system_defaults da_data due_date_window earliest_delivery
        exception_notification).earliestDeliveryDate = some due) ∧
    (da_data.dueDate = none → due_date_window = 0 →
      (_apply_system_defaults da_data due_date_window earliest_delivery
        exception_notification).dueDate = none) ∧
    (da_data.exceptionNotificationDate = none → exception_notification = 0 →
      (_apply_system_defaults da_data due_date_window earliest_delivery
        exception_notification).exceptionNotificationDate = none) := by
  refine ⟨?_, ?_, ?_, ?_⟩
  · intro hedd hdd hpos
    rw [_apply_system_defaults,
      (apply_exception_notification_rule_keeps_other_fields _ _).2,
      apply_earliest_delivery_rule_pos _ due _ ?_ ?_ hpos]
    · rw [(apply_due_date_rule_keeps_other_fields _ _).1, hedd]
    · rw [show (apply_due_date_rule da_data due_date_window).dueDate = some due from ?_]
      obtain ⟨lps, lpe, dd, edd, xnd⟩ := da_data
      simp only at hdd
      subst hdd
      cases lps <;> simp [apply_due_date_rule]
  · intro hedd hdd hzero
    subst hzero
    rw [_apply_system_defaults,
      (apply_exception_notification_rule_keeps_other_fields _ _).2,
      apply_earliest_delivery_rule_zero _ due ?_ ?_]
    · rw [(apply_due_date_rule_keeps_other_fields _ _).1, hedd]
    · obtain ⟨lps, lpe, dd, edd, xnd⟩ := da_data
      simp only at hdd
      subst hdd
      cases lps <;> simp [apply_due_date_rule]
  · intro hdd hzero
    subst hzero
    rw [_apply_system_defaults,
      (apply_exception_notification_rule_keeps_other_fields _ _).1,
      (apply_earliest_delivery_rule_keeps_other_fields _ _).1,
      apply_due_date_rule_skip_zero _ hdd, hdd]
  · intro hxnd hzero
    subst hzero
    rw [_apply_system_defaults, apply_exception_notification_rule_zero,
      (apply_earliest_delivery_rule_keeps_other_fields _ _).2,
      (apply_due_date_rule_keeps_other_fields _ _).2, hxnd]

/-- C8 witness: with a due date of 100, a positive window of 15 gives
earliest delivery 85, a zero window gives exactly 100, and the zero-window
due-date and exception rules leave their fields absent. -/
theorem apply_system_defaults_earliest_delivery_witness :
    (_apply_system_defaults ⟨some 200, some 300, some 100, none, none⟩ 0 15 0).earliestDeliveryDate
      = some 85 ∧
    (_apply_system_defaults ⟨some 200, some 300, some 100, none, none⟩ 0 0 0).earliestDeliveryDate
      = some 100 ∧
    (_apply_system_defaults ⟨some 200, some 300, none, some 50, none⟩ 0 15 0).dueDate = none ∧
    (_apply_system_defaults ⟨some 200, some 300, some 100, some 50, none⟩ 0 15 0).exceptionNotificationDate
      = none :=
  ⟨(apply_system_defaults_earliest_delivery ⟨some 200, some 300, some 100, none, none⟩ 0 15 0 100).1
      rfl rfl (by decide),
    (apply_system_defaults_earliest_delivery ⟨some 200, some 300, some 100, none, none⟩ 0 0 0 100).2.1
      rfl rfl rfl,
    (apply_system_defaults_earliest_delivery ⟨some 200, some 300, none, some 50, none⟩ 0 15 0 0).2.2.1
      rfl rfl,
    (apply_system_defaults_earliest_delivery ⟨some 200, some 300, some 100, some 50, none⟩ 0 15 0 0).2.2.2
      rfl rfl⟩

/-- C6: `process_delivery_for_da` returns reason
`outside_delivery_window` — with tracking skipped and
`Next_Manifest_Check` untouched — exactly when the current time is
strictly before `Earliest_Delivery_Date` or strictly after
`License_Period_End`, and proceeds past the window check on the closed
interval, both endpoints included. -/
theorem process_delivery_for_da_window_gating (da : DAInfo) (e l current_dt : Int)
    (assets : List ManifestAsset) (manifest_frequency : Option Int) (sqs_send_ok : Bool)
    (he : da.earliestDeliveryDate = some e) (hl : da.licensePeriodEnd = some l) :
    ((current_dt < e ∨ l < current_dt) →
      process_delivery_for_da (some da) current_dt assets manifest_frequency sqs_send_ok =
        .ok ⟨false, some "outside_delivery_window", false, false, da.nextManifestCheck⟩) ∧
    (e ≤ current_dt → current_dt ≤ l →
      ∃ out, process_delivery_for_da (some da) current_dt assets manifest_frequency sqs_send_ok =
        .ok out ∧ out.reason ≠ some "outside_delivery_window") := by
  constructor
  · intro hout
    have hwin : _is_within_delivery_window da current_dt = false := by
      simp only [_is_within_delivery_window, he, hl, decide_eq_false_iff_not]
      omega
    simp [process_delivery_for_da, hwin]
  · intro h1 h2
    have hwin : _is_within_delivery_window da current_dt = true := by
      simp only [_is_within_delivery_window, he, hl, decide_eq_true_eq]
      exact ⟨h1, h2⟩
    simp only [process_delivery_for_da, hwin, Bool.not_true, Bool.false_eq_true, if_false]
    by_cases hA : assets.isEmpty = true
    · rw [if_pos hA]
      exact ⟨_, rfl, by simp⟩
    · rw [if_neg hA]
      by_cases hC : (assets.filter (fun asset =>
          ["New", "NEW", "Revised", "REVISED", "Revised", "NEW"].contains asset.fileStatus)).length > 0
      · rw [if_pos hC]
        by_cases hS : _should_send_manifest (some da) current_dt = true
        · rw [if_pos hS]
          by_cases hQ : sqs_send_ok = true
          · rw [if_pos hQ]
            exact ⟨_, rfl, by simp⟩
          · rw [if_neg hQ]
            exact ⟨_, rfl, by simp⟩
        · rw [if_neg hS]
          exact ⟨_, rfl, by simp⟩
      · rw [if_neg hC]
        exact ⟨_, rfl, by simp⟩

/-- C6 witness: with window [0, 10], time 11 is rejected as
`outside_delivery_window` while boundary time 10 proceeds. -/
theorem process_delivery_for_da_window_gating_witness :
    (process_delivery_for_da (some ⟨"d", "L", some 0, some 10, none, true⟩) 11 [] none true =
      .ok ⟨false, some "outside_delivery_window", false, false, none⟩) ∧
    (∃ out, process_delivery_for_da (some ⟨"d", "L", some 0, some 10, none, true⟩) 10 [] none true =
      .ok out ∧ out.reason ≠ some "outside_delivery_window") :=
  ⟨(process_delivery_for_da_window_gating ⟨"d", "L", some 0, some 10, none, true⟩ 0 10 11
      [] none true rfl rfl).1 (by omega),
    (process_delivery_for_da_window_gating ⟨"d", "L", some 0, some 10, none, true⟩ 0 10 10
      [] none true rfl rfl).2 (by omega) (by omega)⟩

/-- C7: on a cycle with at least one New/Revised asset, the manifest is
transmitted only when `Next_Manifest_Check` is absent or already
reached; a still-pending check yields `frequency_limit` with nothing
sent; after a failed transmission the outcome is `sqs_send_failed` with
`Next_Manifest_Check` unchanged; and only a successful transmission
rewrites `Next_Manifest_Check` to now plus the licensee frequency
(default 1800). -/
theorem process_delivery_for_da_frequency_gate (da : DAInfo) (current_dt : Int)
    (assets : List ManifestAsset) (manifest_frequency : Option Int) (sqs_send_ok : Bool)
    (hwin : _is_within_delivery_window da current_dt = true)
    (hne : assets.isEmpty = false)
    (hnr : (assets.filter (fun asset =>
      ["New", "NEW", "Revised", "REVISED", "Revised", "NEW"].contains asset.fileStatus)).length > 0) :
    (∀ t, da.nextManifestCheck = some t → current_dt < t →
      process_delivery_for_da (some da) current_dt assets manifest_frequency sqs_send_ok =
        .ok ⟨true, some "frequency_limit", false, true, da.nextManifestCheck⟩) ∧
    ((da.nextManifestCheck = none ∨ ∃ t, da.nextManifestCheck = some t ∧ t ≤ current_dt) →
      sqs_send_ok = false →
      process_delivery_for_da (some da) current_dt assets manifest_frequency sqs_send_ok =
        .ok ⟨false, some "sqs_send_failed", false, true, da.nextManifestCheck⟩) ∧
    ((da.nextManifestCheck = none ∨ ∃ t, da.nextManifestCheck = some t ∧ t ≤ current_dt) →
      sqs_send_ok = true →
      process_delivery_for_da (some da) current_dt assets manifest_frequency sqs_send_ok =
        .ok ⟨true, none, true, true, some (current_dt + manifest_frequency.getD 1800)⟩) ∧
    (∀ out, process_delivery_for_da (some da) current_dt assets manifest_frequency sqs_send_ok =
        .ok out → out.manifestSent = true →
      (da.nextManifestCheck = none ∨ ∃ t, da.nextManifestCheck = some t ∧ t ≤ current_dt) ∧
        sqs_send_ok = true) := by
  have hgate : _should_send_manifest (some da) current_dt = true ↔
      (da.nextManifestCheck = none ∨ ∃ t, da.nextManifestCheck = some t ∧ t ≤ current_dt) := by
    cases h : da.nextManifestCheck with
    | none => simp [_should_send_manifest, h]
    | some t => simp [_should_send_manifest, h, ge_iff_le]
  have hbase : process_delivery_for_da (some da) current_dt assets manifest_frequency sqs_send_ok =
      if _should_send_manifest (some da) current_dt then
        if sqs_send_ok then
          .ok ⟨true, none, true, true, some (_update_next_manifest_check current_dt manifest_frequency)⟩
        else .ok ⟨false, some "sqs_send_failed", false, true, da.nextManifestCheck⟩
      else .ok ⟨true, some "frequency_limit", false, true, da.nextManifestCheck⟩ := by
    simp only [process_delivery_for_da, hwin, Bool.not_true, Bool.false_eq_true, if_false, hne]
    rw [if_pos hnr]
  refine ⟨?_, ?_, ?_, ?_⟩
  · intro t ht hlt
    have hS : _should_send_manifest (some da) current_dt = false := by
      simp [_should_send_manifest, ht]
      omega
    rw [hbase, hS]
    simp
  · intro hopen hq
    have hS : _should_send_manifest (some da) current_dt = true := hgate.mpr hopen
    rw [hbase, hS, hq]
    simp
  · intro hopen hq
    have hS : _should_send_manifest (some da) current_dt = true := hgate.mpr hopen
    rw [hbase, hS, hq]
    simp [_update_next_manifest_check]
  · intro out hout hsent
    rw [hbase] at hout
    by_cases hS : _should_send_manifest (some da) current_dt = true
    · refine ⟨hgate.mp hS, ?_⟩
      by_cases hq : sqs_send_ok = true
      · exact hq
      · rw [if_pos ?_, if_neg hq] at hout
        · cases hout
          simp at hsent
        · simp [hS]
    · rw [if_neg ?_] at hout
      · cases hout
        simp at hsent
      · simp [hS]

/-- C7 witness: within the window with a New asset, a pending check at
time 5 gates the send at time 3; with the check reached at time 7 a
failed send reports `sqs_send_failed` and keeps the check, and a
successful send moves the check to 7 + 60. -/
theorem process_delivery_for_da_frequency_gate_witness :
    (process_delivery_for_da (some ⟨"d", "L", some 0, some 10, some 5, true⟩) 3
        [⟨"a", "f", "c", "p", "New", 1⟩] (some 60) true =
      .ok ⟨true, some "frequency_limit", false, true, some 5⟩) ∧
    (process_delivery_for_da (some ⟨"d", "L", some 0, some 10, some 5, true⟩) 7
        [⟨"a", "f", "c", "p", "New", 1⟩] (some 60) false =
      .ok ⟨false, some "sqs_send_failed", false, true, some 5⟩) ∧
    (process_delivery_for_da (some ⟨"d", "L", some 0, some 10, some 5, true⟩) 7
        [⟨"a", "f", "c", "p", "New", 1⟩] (some 60) true =
      .ok ⟨true, none, true, true, some 67⟩) :=
  ⟨(process_delivery_for_da_frequency_gate ⟨"d", "L", some 0, some 10, some 5, true⟩ 3
      [⟨"a", "f", "c", "p", "New", 1⟩] (some 60) true (by decide) (by decide) (by decide)).1
      5 rfl (by omega),
    (process_delivery_for_da_frequency_gate ⟨"d", "L", some 0, some 10, some 5, true⟩ 7
      [⟨"a", "f", "c", "p", "New", 1⟩] (some 60) false (by decide) (by decide) (by decide)).2.1
      (Or.inr ⟨5, rfl, by omega⟩) rfl,
    (process_delivery_for_da_frequency_gate ⟨"d", "L", some 0, some 10, some 5, true⟩ 7
      [⟨"a", "f", "c", "p", "New", 1⟩] (some 60) true (by decide) (by decide) (by decide)).2.2.1
      (Or.inr ⟨5, rfl, by omega⟩) rfl⟩

theorem check_component_assets_eq_nil_iff (expected_assets : List CatalogAsset)
    (exists_in_s3 : String → String → Bool) :
    _check_component_assets expected_assets exists_in_s3 = [] ↔
      ∀ a ∈ expected_assets, exists_in_s3 a.filename (cleanFolderPath a.folderPath) = true := by
  unfold _check_component_assets
  rw [List.filterMap_eq_nil_iff]
  constructor
  · intro h a ha
    have h2 := h a ha
    by_cases hs : exists_in_s3 a.filename (cleanFolderPath a.folderPath) = true
    · exact hs
    · simp [hs] at h2
  · intro h a ha
    simp [h a ha]

theorem check_component_assets_ne_nil_iff (expected_assets : List CatalogAsset)
    (exists_in_s3 : String → String → Bool) :
    _check_component_assets expected_assets exists_in_s3 ≠ [] ↔
      ∃ a ∈ expected_assets, exists_in_s3 a.filename (cleanFolderPath a.folderPath) = false := by
  rw [Ne, check_component_assets_eq_nil_iff]
  push_neg
  simp [Bool.not_eq_true]

theorem mem_missing_components_iff (da_id : String) (components : List ComponentRow)
    (expected_assets_of : String → List CatalogAsset) (exists_in_s3 : String → String → Bool)
    (entry : MissingComponentEntry) :
    entry ∈ (check_missing_assets_for_da da_id components expected_assets_of
        exists_in_s3).missingComponents ↔
      ∃ c ∈ components, strToUpper (c.requiredFlag.getD "FALSE") = "TRUE" ∧
        _check_component_assets (expected_assets_of c.componentId) exists_in_s3 ≠ [] ∧
        entry = (⟨c.componentId,
          _check_component_assets (expected_assets_of c.componentId) exists_in_s3⟩
            : MissingComponentEntry) := by
  simp only [check_missing_assets_for_da]
  rw [List.mem_filterMap]
  constructor
  · rintro ⟨c, hc, hg⟩
    by_cases hreq : strToUpper (c.requiredFlag.getD "FALSE") = "TRUE"
    · by_cases hm : (_check_component_assets (expected_assets_of c.componentId)
          exists_in_s3).isEmpty = true
      · rw [if_neg (by simp [hreq]), if_pos hm] at hg
        cases hg
      · rw [if_neg (by simp [hreq]), if_neg hm] at hg
        cases hg
        refine ⟨c, hc, hreq, ?_, rfl⟩
        intro h
        exact hm (by simp [h])
    · rw [if_pos hreq] at hg
      cases hg
  · rintro ⟨c, hc, hreq, hne, rfl⟩
    refine ⟨c, hc, ?_⟩
    rw [if_neg (by simp [hreq]), if_neg (fun h => hne (List.isEmpty_iff.mp h))]

theorem missing_total_count_aux (components : List ComponentRow)
    (expected_assets_of : String → List CatalogAsset) (exists_in_s3 : String → String → Bool) :
    ((components.filterMap (fun component =>
        if strToUpper (component.requiredFlag.getD "FALSE") ≠ "TRUE" then none
        else
          if (_check_component_assets (expected_assets_of component.componentId)
              exists_in_s3).isEmpty = true then none
          else some (⟨component.componentId,
            _check_component_assets (expected_assets_of component.componentId) exists_in_s3⟩
              : MissingComponentEntry))).map
      (fun c => c.missingAssets.length)).sum =
    ((components.filter (fun c => strToUpper (c.requiredFlag.getD "FALSE") == "TRUE")).map
      (fun c => (_check_component_assets (expected_assets_of c.componentId)
        exists_in_s3).length)).sum := by
  induction components with
  | nil => rfl
  | cons c cs ih =>
    by_cases hreq : strToUpper (c.requiredFlag.getD "FALSE") = "TRUE"
    · by_cases hm : (_check_component_assets (expected_assets_of c.componentId)
          exists_in_s3).isEmpty = true
      · have hnil : _check_component_assets (expected_assets_of c.componentId) exists_in_s3
            = [] := List.isEmpty_iff.mp hm
        simp only [List.filterMap_cons, List.filter_cons, hreq, hnil]
        simp only [List.isEmpty_nil, reduceIte, String.reduceEq]
        simpa [hnil] using ih
      · have hnnil : _check_component_assets (expected_assets_of c.componentId) exists_in_s3
            ≠ [] := fun h => hm (by simp [h])
        simp [List.filterMap_cons, List.filter_cons, hreq, hnnil]
        simpa using ih
    · simp [List.filterMap_cons, List.filter_cons, hreq]
      simpa using ih

/-- C9: `check_missing_assets_for_da` inspects only components whose
`Required_Flag` is TRUE; `total_missing_count` is the sum over required
components of the number of expected assets absent from storage;
`has_missing_assets` holds exactly when some required component has an
expected asset absent from storage; and every reported entry carries a
required component's id together with precisely its absent expected
assets. -/
theorem check_missing_assets_for_da_report (da_id : String) (components : List ComponentRow)
    (expected_assets_of : String → List CatalogAsset) (exists_in_s3 : String → String → Bool) :
    (check_missing_assets_for_da da_id components expected_assets_of
        exists_in_s3).totalMissingCount =
      ((components.filter (fun c => strToUpper (c.requiredFlag.getD "FALSE") == "TRUE")).map
        (fun c => (_check_component_assets (expected_assets_of c.componentId)
          exists_in_s3).length)).sum ∧
    ((check_missing_assets_for_da da_id components expected_assets_of
        exists_in_s3).hasMissingAssets = true ↔
      ∃ c ∈ components, strToUpper (c.requiredFlag.getD "FALSE") = "TRUE" ∧
        ∃ a ∈ expected_assets_of c.componentId,
          exists_in_s3 a.filename (cleanFolderPath a.folderPath) = false) ∧
    (∀ entry ∈ (check_missing_assets_for_da da_id components expected_assets_of
        exists_in_s3).missingComponents,
      entry.missingAssets = _check_component_assets (expected_assets_of entry.componentId)
          exists_in_s3 ∧
      entry.missingAssets ≠ [] ∧
      ∃ c ∈ components, c.componentId = entry.componentId ∧
        strToUpper (c.requiredFlag.getD "FALSE") = "TRUE") := by
  refine ⟨?_, ?_, ?_⟩
  · simpa only [check_missing_assets_for_da] using
      missing_total_count_aux components expected_assets_of exists_in_s3
  · have hmem := fun entry => mem_missing_components_iff da_id components expected_assets_of
      exists_in_s3 entry
    constructor
    · intro h
      have hlen : 0 < (check_missing_assets_for_da da_id components expected_assets_of
          exists_in_s3).missingComponents.length := by
        simpa only [check_missing_assets_for_da, decide_eq_true_eq] using h
      obtain ⟨entry, hentry⟩ := List.exists_mem_of_length_pos hlen
      obtain ⟨c, hc, hreq, hne, -⟩ := (hmem entry).mp hentry
      exact ⟨c, hc, hreq, (check_component_assets_ne_nil_iff _ _).mp hne⟩
    · rintro ⟨c, hc, hreq, hwit⟩
      have hne : _check_component_assets (expected_assets_of c.componentId) exists_in_s3 ≠ [] :=
        (check_component_assets_ne_nil_iff _ _).mpr hwit
      have hentry := (hmem ⟨c.componentId,
        _check_component_assets (expected_assets_of c.componentId) exists_in_s3⟩).mpr
        ⟨c, hc, hreq, hne, rfl⟩
      have hlen : 0 < (check_missing_assets_for_da da_id components expected_assets_of
          exists_in_s3).missingComponents.length :=
        List.length_pos.mpr (fun hnil => by simp [hnil] at hentry)
      simpa only [check_missing_assets_for_da, decide_eq_true_eq] using hlen
  · intro entry hentry
    obtain ⟨c, hc, hreq, hne, rfl⟩ := (mem_missing_components_iff da_id components
      expected_assets_of exists_in_s3 entry).mp hentry
    exact ⟨rfl, hne, c, hc, rfl, hreq⟩

/-- C9 witness: one required component expecting two assets with only one
present in storage reports a single entry, a total of one missing asset
and `has_missing_assets` true. -/
theorem check_missing_assets_for_da_report_witness :
    (check_missing_assets_for_da "d" [⟨"c1", none, some "TRUE"⟩]
      (fun _ => [⟨"a1", "f1", "p", "ck", some 1⟩, ⟨"a2", "f2", "p", "ck", some 1⟩])
      (fun fn _ => fn == "f1")).totalMissingCount =
      (([(⟨"c1", none, some "TRUE"⟩ : ComponentRow)].filter
        (fun c => strToUpper (c.requiredFlag.getD "FALSE") == "TRUE")).map
        (fun c => (_check_component_assets
          ([⟨"a1", "f1", "p", "ck", some 1⟩, ⟨"a2", "f2", "p", "ck", some 1⟩])
          (fun fn _ => fn == "f1")).length)).sum ∧
    ((check_missing_assets_for_da "d" [⟨"c1", none, some "TRUE"⟩]
      (fun _ => [⟨"a1", "f1", "p", "ck", some 1⟩, ⟨"a2", "f2", "p", "ck", some 1⟩])
      (fun fn _ => fn == "f1")).hasMissingAssets = true ↔
      ∃ c ∈ [(⟨"c1", none, some "TRUE"⟩ : ComponentRow)],
        strToUpper (c.requiredFlag.getD "FALSE") = "TRUE" ∧
        ∃ a ∈ [(⟨"a1", "f1", "p", "ck", some 1⟩ : CatalogAsset), ⟨"a2", "f2", "p", "ck", some 1⟩],
          (fun (fn : String) (_ : String) => fn == "f1") a.filename
            (cleanFolderPath a.folderPath) = false) :=
  ⟨(check_missing_assets_for_da_report "d" [⟨"c1", none, some "TRUE"⟩]
      (fun _ => [⟨"a1", "f1", "p", "ck", some 1⟩, ⟨"a2", "f2", "p", "ck", some 1⟩])
      (fun fn _ => fn == "f1")).1,
    (check_missing_assets_for_da_report "d" [⟨"c1", none, some "TRUE"⟩]
      (fun _ => [⟨"a1", "f1", "p", "ck", some 1⟩, ⟨"a2", "f2", "p", "ck", some 1⟩])
      (fun fn _ => fn == "f1")).2.1⟩

theorem maxByVersion_spec (x : CatalogAsset) (xs : List CatalogAsset) :
    ∃ latest, maxByVersion (x :: xs) = some latest ∧ latest ∈ x :: xs ∧
      ∀ i ∈ x :: xs, i.version.getD 1 ≤ latest.version.getD 1 := by
  induction xs generalizing x with
  | nil =>
    refine ⟨x, rfl, by simp, ?_⟩
    intro i hi
    simp only [List.mem_singleton] at hi
    subst hi
    exact le_refl _
  | cons y ys ih =>
    obtain ⟨latest, h1, hmem, hmax⟩ := ih (if y.version.getD 1 > x.version.getD 1 then y else x)
    have hstep : maxByVersion (x :: y :: ys) =
        maxByVersion ((if y.version.getD 1 > x.version.getD 1 then y else x) :: ys) := by
      simp [maxByVersion]
    have hsm : (if y.version.getD 1 > x.version.getD 1 then y else x) ∈ x :: y :: ys := by
      by_cases hxy : y.version.getD 1 > x.version.getD 1 <;> simp [hxy]
    refine ⟨latest, hstep.trans h1, ?_, ?_⟩
    · rcases List.mem_cons.mp hmem with h | h
      · rw [h]
        exact hsm
      · exact List.mem_cons_of_mem _ (List.mem_cons_of_mem _ h)
    · intro i hi
      rcases List.mem_cons.mp hi with h | h
      · subst h
        have hs := hmax _ (List.mem_cons_self _ _)
        by_cases hxy : y.version.getD 1 > i.version.getD 1
        · rw [if_pos hxy] at hs
          omega
        · rw [if_neg hxy] at hs
          omega
      · rcases List.mem_cons.mp h with h2 | h2
        · subst h2
          have hs := hmax _ (List.mem_cons_self _ _)
          by_cases hxy : i.version.getD 1 > x.version.getD 1
          · rw [if_pos hxy] at hs
            omega
          · rw [if_neg hxy] at hs
            omega
        · exact hmax _ (List.mem_cons_of_mem _ h2)

/-- C4 amended: version assignment is keyed by folder, not by
(folder, filename).  An empty folder yields version 1; any stored item
of the folder matching the incoming normalized folder path, filename and
checksum makes the upload a skip; otherwise the folder-wide
latest-version item decides: same checksum ⇒ skip, different checksum ⇒
that latest version (default 1) plus one — regardless of which filename
carries it. -/
theorem get_next_version_amended (folder_path new_checksum filename : String)
    (items : List CatalogAsset) :
    (items = [] →
      get_next_version folder_path new_checksum filename (Except.ok items) = some 1) ∧
    (items.any (fun item =>
        (normalize_s3_path item.folderPath == normalize_s3_path folder_path) &&
        (item.filename == filename) && (item.checksum == new_checksum)) = true →
      get_next_version folder_path new_checksum filename (Except.ok items) = none) ∧
    (items ≠ [] →
      items.any (fun item =>
        (normalize_s3_path item.folderPath == normalize_s3_path folder_path) &&
        (item.filename == filename) && (item.checksum == new_checksum)) = false →
      ∃ latest, latest ∈ items ∧
        (∀ i ∈ items, i.version.getD 1 ≤ latest.version.getD 1) ∧
        (latest.checksum = new_checksum →
          get_next_version folder_path new_checksum filename (Except.ok items) = none) ∧
        (latest.checksum ≠ new_checksum →
          get_next_version folder_path new_checksum filename (Except.ok items) =
            some (latest.version.getD 1 + 1))) := by
  refine ⟨?_, ?_, ?_⟩
  · rintro rfl
    rfl
  · intro hdup
    have hne : items.isEmpty = false := by
      cases items with
      | nil => simp at hdup
      | cons a l => rfl
    simp only [get_next_version, hne, Bool.false_eq_true, if_false, hdup, if_true]
  · intro hne hdup
    obtain ⟨x, xs, rfl⟩ : ∃ x xs, items = x :: xs := by
      cases items with
      | nil => exact absurd rfl hne
      | cons x xs => exact ⟨x, xs, rfl⟩
    obtain ⟨latest, hmax_eq, hmem, hmax⟩ := maxByVersion_spec x xs
    refine ⟨latest, hmem, hmax, ?_, ?_⟩
    · intro hck
      simp only [get_next_version, List.isEmpty_cons, Bool.false_eq_true, if_false, hdup,
        hmax_eq]
      rw [if_pos hck]
    · intro hck
      simp only [get_next_version, List.isEmpty_cons, Bool.false_eq_true, if_false, hdup,
        hmax_eq]
      rw [if_neg hck]

/-- C4 amended witness: in a folder holding one record (filename `a`,
version 1, checksum `X`), an upload of filename `b` with checksum `Y` is
assigned the folder latest version plus one. -/
theorem get_next_version_amended_witness :
    ∃ latest, latest ∈ [(⟨"id1", "a", "f", "X", some 1⟩ : CatalogAsset)] ∧
      (∀ i ∈ [(⟨"id1", "a", "f", "X", some 1⟩ : CatalogAsset)],
        i.version.getD 1 ≤ latest.version.getD 1) ∧
      (latest.checksum = "Y" →
        get_next_version "f" "Y" "b"
          (Except.ok [⟨"id1", "a", "f", "X", some 1⟩]) = none) ∧
      (latest.checksum ≠ "Y" →
        get_next_version "f" "Y" "b"
          (Except.ok [⟨"id1", "a", "f", "X", some 1⟩]) =
          some (latest.version.getD 1 + 1)) :=
  (get_next_version_amended "f" "Y" "b" [⟨"id1", "a", "f", "X", some 1⟩]).2.2
    (by simp) (by decide)
